import Mathlib

/-!
A shallow embedding of `src/bluesky_cli/cli.py` (a Bluesky command-line
client) and proofs about its session-management and command-dispatch
behaviour.

The on-disk session file is modelled as `Option String` (its content, or
`none` when absent).  The external atproto client library, the network and
the account are modelled by the `Remote` oracle: each remote operation is a
function field returning `Except String α`, where `Except.error e` stands
for an `AtProtocolError` whose rendered message is `e`.  The Python standard
library's `datetime.fromisoformat` is modelled by an explicit function
parameter `fromiso`.  Commands return a `CmdOut` trace recording stdout,
stderr, the remote content calls issued, the authentication calls issued by
`get_client`, the final session-file state and the process exit code
(`click` exits 0 when the command returns normally; the code only ever calls
`sys.exit(1)`).
-/

namespace BlueskyCli

/-- Python truthiness of an `Optional[str]`: `None` and `""` are falsy. -/
def pyTruthy : Option String → Bool
  | none => false
  | some s => s ≠ ""

/-- Python `a or b` on an `Optional[str]` `a` with a `str` fallback `b`. -/
def pyOr (a : Option String) (b : String) : String :=
  match a with
  | some s => if s ≠ "" then s else b
  | none => b

/-- The two environment variables read by `get_client`
(`os.environ.get` returns `None` when a variable is absent). -/
structure Env where
  BLUESKY_HANDLE : Option String
  BLUESKY_APP_PASSWORD : Option String
  deriving Repr, DecidableEq

/-- The in-memory authenticated client: the value
`client.export_session_string()` would return, and `client.me`. -/
structure Client where
  export_session_string : String
  me_handle : String
  me_did : String
  deriving Repr, DecidableEq

/-- A strong ref `{"uri": ..., "cid": ...}` as built in `reply`. -/
structure StrongRef where
  uri : String
  cid : String
  deriving Repr, DecidableEq

/-- The `reply_ref` dictionary built in `reply`. -/
structure ReplyRef where
  root : StrongRef
  parent : StrongRef
  deriving Repr, DecidableEq

/-- The record returned by `client.send_post` (only `.uri` is read). -/
structure CreatedPost where
  uri : String
  deriving Repr, DecidableEq

/-- `record.created_at`: the code branches on `isinstance(created, str)`;
`other` carries the `str(created)` rendering of a non-string value. -/
inductive CreatedAt where
  | str (s : String)
  | other (repr : String)
  deriving Repr, DecidableEq

/-- A post author (`post.author`): handle and optional display name. -/
structure Author where
  handle : String
  display_name : Option String
  deriving Repr, DecidableEq

/-- A post record (`post.record`). -/
structure PostRecord where
  text : String
  created_at : CreatedAt
  deriving Repr, DecidableEq

/-- A post view: the fields of `post.post` / `thread.thread.post` that the
code reads.  The engagement counts are `Optional[int]` (`X or 0`). -/
structure PostView where
  record : PostRecord
  author : Author
  like_count : Option Int
  repost_count : Option Int
  reply_count : Option Int
  uri : String
  cid : String
  deriving Repr, DecidableEq

/-- A timeline feed item (`format_post` reads `item.post`). -/
structure FeedViewPost where
  post : PostView
  deriving Repr, DecidableEq

/-- The response of `client.get_timeline`. -/
structure Feed where
  feed : List FeedViewPost
  deriving Repr, DecidableEq

/-- A parent node of a thread view; `hasattr(parent, "post")` is modelled
by the `post` field being `some`. -/
structure ParentNode where
  post : Option PostView
  deriving Repr, DecidableEq

/-- A reply node of a thread view; `hasattr(reply, "post")` is modelled by
the `post` field being `some`. -/
structure ReplyNode where
  post : Option PostView
  deriving Repr, DecidableEq

/-- The thread view `result.thread`: `parent` is absent/falsy when `none`,
`replies` is falsy when `none` or the empty list. -/
structure ThreadView where
  post : PostView
  parent : Option ParentNode
  replies : Option (List ReplyNode)
  deriving Repr, DecidableEq

/-- The response of `client.get_post_thread`. -/
structure ThreadResp where
  thread : ThreadView
  deriving Repr, DecidableEq

/-- The response of `client.app.bsky.feed.search_posts`. -/
structure SearchOut where
  posts : List PostView
  deriving Repr, DecidableEq

/-- The response of `client.get_profile`. -/
structure Profile where
  handle : String
  display_name : Option String
  description : Option String
  followers_count : Int
  follows_count : Int
  posts_count : Int
  deriving Repr, DecidableEq

/-- An authentication call issued by `get_client` to the remote. -/
inductive AuthCall where
  | restoreLogin (session_string : String)
  | credentialLogin (handle password : String)
  deriving Repr, DecidableEq

/-- A content call issued by a command after the client was obtained. -/
inductive ContentCall where
  | sendPost (text : String) (reply_to : Option ReplyRef)
  | getTimeline (limit : Int)
  | getPostThread (uri : String)
  | likePost (uri cid : String)
  | searchPosts (q : String) (limit : Int)
  | getProfile (handle : String)
  deriving Repr, DecidableEq

/-- The remote collaborator (the atproto client library plus the account
behind it), as a deterministic oracle.  `restore` is
`Client().login(session_string=s)`: `some ex` means success with
`export_session_string()` returning `ex` afterwards, `none` any exception.
`login` is `Client().login(handle, password)`: `Except.ok ex` means success
with export string `ex`, `Except.error e` an `AtProtocolError` rendering as
`e`.  The content operations likewise return `Except.error e` for an
`AtProtocolError` rendering as `e`. -/
structure Remote where
  restore : String → Option String
  login : String → String → Except String String
  me_handle : String
  me_did : String
  send_post : String → Option ReplyRef → Except String CreatedPost
  get_timeline : Int → Except String Feed
  get_post_thread : String → Except String ThreadResp
  like : String → String → Except String Unit
  search_posts : String → Int → Except String SearchOut
  get_profile : String → Except String Profile

/-- The outcome of `get_client`: either a client (and `exit_code = none`)
or a fatal exit (`client = none`, `exit_code = some 1`), together with the
final session-file content, the authentication calls made and the lines
written to stderr. -/
structure GetClientResult where
  client : Option Client
  exit_code : Option Nat
  session_file : Option String
  auth_calls : List AuthCall
  err_out : List String
  deriving Repr, DecidableEq

/-- `save_session`: writes `client.export_session_string()` to the session
file (directory creation has no observable effect in this model). -/
def save_session (client : Client) : Option String :=
  some client.export_session_string

/-- Python `str.strip()`: the string without leading and trailing
whitespace. -/
def py_strip (s : String) : String :=
  String.mk (((s.data.dropWhile Char.isWhitespace).reverse.dropWhile
    Char.isWhitespace).reverse)

/-- `load_session`: `None` when the file is absent, otherwise the file text
stripped of surrounding whitespace. -/
def load_session (file : Option String) : Option String :=
  match file with
  | none => none
  | some s => some (py_strip s)

/-- `clear_session`: deletes the session file if it exists. -/
def clear_session (file : Option String) : Option String :=
  match file with
  | some _ => none
  | none => none

/-- The fresh-credential-login half of `get_client` (from the comment
`# Fresh login required` on): reads the two environment variables, exits
fatally when either is falsy, otherwise performs one `client.login(handle,
password)` and persists the session on success. -/
def fresh_login (r : Remote) (env : Env) (file : Option String)
    (calls : List AuthCall) (errs : List String) : GetClientResult :=
  let handle := env.BLUESKY_HANDLE
  let password := env.BLUESKY_APP_PASSWORD
  if !pyTruthy handle || !pyTruthy password then
    { client := none, exit_code := some 1, session_file := file,
      auth_calls := calls,
      err_out := errs ++ ["Error: BLUESKY_HANDLE and BLUESKY_APP_PASSWORD must be set"] }
  else
    let h := handle.getD ""
    let p := password.getD ""
    match r.login h p with
    | Except.ok ex =>
      let client : Client :=
        { export_session_string := ex, me_handle := r.me_handle, me_did := r.me_did }
      let m := client.me_handle
      { client := some client, exit_code := none,
        session_file := save_session client,
        auth_calls := calls ++ [AuthCall.credentialLogin h p],
        err_out := errs ++ [s!"✓ Logged in as @{m} (session cached)"] }
    | Except.error e =>
      { client := none, exit_code := some 1, session_file := file,
        auth_calls := calls ++ [AuthCall.credentialLogin h p],
        err_out := errs ++ [s!"Login failed: {e}"] }

/-- `get_client`: restore the cached session when one loads and is truthy;
on any exception clear it and fall through to fresh login; otherwise fresh
login directly. -/
def get_client (r : Remote) (env : Env) (file : Option String) : GetClientResult :=
  let session_string := load_session file
  if pyTruthy session_string then
    let s := session_string.getD ""
    match r.restore s with
    | some ex =>
      let client : Client :=
        { export_session_string := ex, me_handle := r.me_handle, me_did := r.me_did }
      { client := some client, exit_code := none,
        session_file := save_session client,
        auth_calls := [AuthCall.restoreLogin s], err_out := [] }
    | none =>
      fresh_login r env (clear_session file) [AuthCall.restoreLogin s] []
  else
    fresh_login r env file []  []

/-- A parsed timestamp, as far as `strftime("%Y-%m-%d %H:%M")` reads it. -/
structure PyDateTime where
  year : Nat
  month : Nat
  day : Nat
  hour : Nat
  minute : Nat
  deriving Repr, DecidableEq

/-- Zero-pad to two digits, as `strftime` does for `%m %d %H %M`. -/
def pad2 (n : Nat) : String :=
  if n < 10 then "0" ++ toString n else toString n

/-- Zero-pad to four digits, as `strftime` does for `%Y`. -/
def pad4 (n : Nat) : String :=
  if n < 10 then "000" ++ toString n
  else if n < 100 then "00" ++ toString n
  else if n < 1000 then "0" ++ toString n
  else toString n

/-- `dt.strftime("%Y-%m-%d %H:%M")`. -/
def strftime_ymd_hm (dt : PyDateTime) : String :=
  pad4 dt.year ++ "-" ++ pad2 dt.month ++ "-" ++ pad2 dt.day ++ " "
    ++ pad2 dt.hour ++ ":" ++ pad2 dt.minute

/-- The `time_str` computation of `format_post`: for a string timestamp,
replace `Z` by `+00:00`, try `datetime.fromisoformat` and render it with
`strftime`, falling back to the raw string on `ValueError`; for a
non-string value, its `str()`. -/
def format_time (fromiso : String → Option PyDateTime) (created_at : CreatedAt) : String :=
  match created_at with
  | CreatedAt.str created =>
    match fromiso (created.replace "Z" "+00:00") with
    | some dt => strftime_ymd_hm dt
    | none => created
  | CreatedAt.other repr => repr

/-- `format_post`: renders one feed item.  `fromiso` models
`datetime.fromisoformat` (`none` = `ValueError`). -/
def format_post (fromiso : String → Option PyDateTime)
    (post : FeedViewPost) (show_uri : Bool := false) : String :=
  let record := post.post.record
  let author := post.post.author
  let time_str := format_time fromiso record.created_at
  let h := author.handle
  let display := pyOr author.display_name author.handle
  let t := record.text
  let like_count := (post.post.like_count).getD 0
  let repost_count := (post.post.repost_count).getD 0
  let reply_count := (post.post.reply_count).getD 0
  let stats := s!"  ♥ {like_count}  🔁 {repost_count}  💬 {reply_count}"
  let lines := [s!"@{h} ({display})", s!"  {t}", s!"  {time_str}", stats]
  let u := post.post.uri
  let lines := if show_uri then lines ++ [s!"  URI: {u}"] else lines
  String.intercalate "\n" lines

/-- The observable outcome of one command invocation: exit code (0 when the
command returns normally, otherwise the `sys.exit` argument), the lines
echoed to stdout and stderr (each `click.echo` is one element; `echo()` is
`""`), the content calls issued after the client was obtained, the
authentication calls issued by `get_client`, the final session-file state,
and whether an authenticated client was obtained at all. -/
structure CmdOut where
  exit_code : Nat
  std_out : List String
  err_out : List String
  content_calls : List ContentCall
  auth_calls : List AuthCall
  session_file : Option String
  got_client : Bool
  deriving Repr, DecidableEq

/-- The command outcome when `get_client` exits instead of returning. -/
def client_failure (gc : GetClientResult) : CmdOut :=
  { exit_code := gc.exit_code.getD 1, std_out := [], err_out := gc.err_out,
    content_calls := [], auth_calls := gc.auth_calls,
    session_file := gc.session_file, got_client := false }

/-- The `post` command. -/
def post (r : Remote) (env : Env) (file : Option String) (text : String) : CmdOut :=
  if text.length > 300 then
    let n := text.length
    { exit_code := 1, std_out := [],
      err_out := [s!"Error: Post too long ({n} chars, max 300)"],
      content_calls := [], auth_calls := [], session_file := file,
      got_client := false }
  else
    let gc := get_client r env file
    match gc.client with
    | none => client_failure gc
    | some _client =>
      match r.send_post text none with
      | Except.ok result =>
        let head := text.take 50 ++ (if text.length > 50 then "..." else "")
        let u := result.uri
        { exit_code := 0, std_out := [s!"✓ Posted: {head}", s!"  URI: {u}"],
          err_out := gc.err_out,
          content_calls := [ContentCall.sendPost text none],
          auth_calls := gc.auth_calls, session_file := gc.session_file,
          got_client := true }
      | Except.error e =>
        { exit_code := 1, std_out := [],
          err_out := gc.err_out ++ [s!"Failed to post: {e}"],
          content_calls := [ContentCall.sendPost text none],
          auth_calls := gc.auth_calls, session_file := gc.session_file,
          got_client := true }

/-- The `timeline` command (`limit` defaults to 20 in the CLI). -/
def timeline (fromiso : String → Option PyDateTime) (r : Remote) (env : Env)
    (file : Option String) (limit : Int) (uri : Bool) : CmdOut :=
  let gc := get_client r env file
  match gc.client with
  | none => client_failure gc
  | some _client =>
    match r.get_timeline limit with
    | Except.ok feed =>
      let n := feed.feed.length
      { exit_code := 0,
        std_out := [s!"# Timeline ({n} posts)\n"]
          ++ (feed.feed.map (fun item => [format_post fromiso item uri, ""])).flatten,
        err_out := gc.err_out,
        content_calls := [ContentCall.getTimeline limit],
        auth_calls := gc.auth_calls, session_file := gc.session_file,
        got_client := true }
    | Except.error e =>
      { exit_code := 1, std_out := [],
        err_out := gc.err_out ++ [s!"Failed to get timeline: {e}"],
        content_calls := [ContentCall.getTimeline limit],
        auth_calls := gc.auth_calls, session_file := gc.session_file,
        got_client := true }

/-- The `reply` command. -/
def reply (r : Remote) (env : Env) (file : Option String)
    (post_uri : String) (text : String) : CmdOut :=
  if text.length > 300 then
    let n := text.length
    { exit_code := 1, std_out := [],
      err_out := [s!"Error: Reply too long ({n} chars, max 300)"],
      content_calls := [], auth_calls := [], session_file := file,
      got_client := false }
  else
    let gc := get_client r env file
    match gc.client with
    | none => client_failure gc
    | some _client =>
      match r.get_post_thread post_uri with
      | Except.error e =>
        { exit_code := 1, std_out := [],
          err_out := gc.err_out ++ [s!"Failed to reply: {e}"],
          content_calls := [ContentCall.getPostThread post_uri],
          auth_calls := gc.auth_calls, session_file := gc.session_file,
          got_client := true }
      | Except.ok thread =>
        let parent := thread.thread.post
        let reply_ref : ReplyRef :=
          { root := { uri := parent.uri, cid := parent.cid },
            parent := { uri := parent.uri, cid := parent.cid } }
        match r.send_post text (some reply_ref) with
        | Except.ok result =>
          let head := text.take 50 ++ (if text.length > 50 then "..." else "")
          let u := result.uri
          { exit_code := 0,
            std_out := [s!"✓ Replied: {head}", s!"  URI: {u}"],
            err_out := gc.err_out,
            content_calls := [ContentCall.getPostThread post_uri,
              ContentCall.sendPost text (some reply_ref)],
            auth_calls := gc.auth_calls, session_file := gc.session_file,
            got_client := true }
        | Except.error e =>
          { exit_code := 1, std_out := [],
            err_out := gc.err_out ++ [s!"Failed to reply: {e}"],
            content_calls := [ContentCall.getPostThread post_uri,
              ContentCall.sendPost text (some reply_ref)],
            auth_calls := gc.auth_calls, session_file := gc.session_file,
            got_client := true }

/-- The `like` command. -/
def like (r : Remote) (env : Env) (file : Option String)
    (post_uri : String) : CmdOut :=
  let gc := get_client r env file
  match gc.client with
  | none => client_failure gc
  | some _client =>
    match r.get_post_thread post_uri with
    | Except.error e =>
      { exit_code := 1, std_out := [],
        err_out := gc.err_out ++ [s!"Failed to like: {e}"],
        content_calls := [ContentCall.getPostThread post_uri],
        auth_calls := gc.auth_calls, session_file := gc.session_file,
        got_client := true }
    | Except.ok thread =>
      let p := thread.thread.post
      match r.like p.uri p.cid with
      | Except.ok _ =>
        let ah := p.author.handle
        { exit_code := 0, std_out := [s!"✓ Liked post by @{ah}"],
          err_out := gc.err_out,
          content_calls := [ContentCall.getPostThread post_uri,
            ContentCall.likePost p.uri p.cid],
          auth_calls := gc.auth_calls, session_file := gc.session_file,
          got_client := true }
      | Except.error e =>
        { exit_code := 1, std_out := [],
          err_out := gc.err_out ++ [s!"Failed to like: {e}"],
          content_calls := [ContentCall.getPostThread post_uri,
            ContentCall.likePost p.uri p.cid],
          auth_calls := gc.auth_calls, session_file := gc.session_file,
          got_client := true }

/-- The parent section of the `thread` command's output
(`--- Parent ---`, the parent line when the node has a post, blank line). -/
def thread_parent_lines (tp : ThreadView) : List String :=
  match tp.parent with
  | some parent =>
    ["--- Parent ---"]
      ++ (match parent.post with
          | some pp =>
            let ph := pp.author.handle
            let pt := pp.record.text
            [s!"@{ph}: {pt}"]
          | none => [])
      ++ [""]
  | none => []

/-- The main-post section of the `thread` command's output. -/
def thread_main_lines (tp : ThreadView) : List String :=
  let p := tp.post
  let h := p.author.handle
  let display := pyOr p.author.display_name p.author.handle
  let t := p.record.text
  let lc := (p.like_count).getD 0
  let rc := (p.repost_count).getD 0
  let rpc := (p.reply_count).getD 0
  ["--- Post ---", s!"@{h} ({display})", s!"  {t}",
    s!"  ♥ {lc}  🔁 {rc}  💬 {rpc}", ""]

/-- One iteration of the replies loop of the `thread` command: nothing when
the node has no `post` attribute, otherwise the reply line (text truncated
to its first 100 characters) and a blank line. -/
def thread_reply_lines (rp : ReplyNode) : List String :=
  match rp.post with
  | some p =>
    let rh := p.author.handle
    let rt := p.record.text.take 100
    [s!"@{rh}: {rt}", ""]
  | none => []

/-- The replies section of the `thread` command's output: present only when
`replies` is truthy (non-`None` and non-empty), and iterating over
`thread_post.replies[:10]`. -/
def thread_replies_lines (tp : ThreadView) : List String :=
  match tp.replies with
  | some replies =>
    if replies ≠ [] then
      ["--- Replies ---"] ++ ((replies.take 10).map thread_reply_lines).flatten
    else []
  | none => []

/-- The `thread` command. -/
def thread (r : Remote) (env : Env) (file : Option String)
    (post_uri : String) : CmdOut :=
  let gc := get_client r env file
  match gc.client with
  | none => client_failure gc
  | some _client =>
    match r.get_post_thread post_uri with
    | Except.ok result =>
      let thread_post := result.thread
      { exit_code := 0,
        std_out := thread_parent_lines thread_post
          ++ thread_main_lines thread_post
          ++ thread_replies_lines thread_post,
        err_out := gc.err_out,
        content_calls := [ContentCall.getPostThread post_uri],
        auth_calls := gc.auth_calls, session_file := gc.session_file,
        got_client := true }
    | Except.error e =>
      { exit_code := 1, std_out := [],
        err_out := gc.err_out ++ [s!"Failed to get thread: {e}"],
        content_calls := [ContentCall.getPostThread post_uri],
        auth_calls := gc.auth_calls, session_file := gc.session_file,
        got_client := true }

/-- The `search` command (`limit` defaults to 20 in the CLI). -/
def search (r : Remote) (env : Env) (file : Option String)
    (query : String) (limit : Int) : CmdOut :=
  let gc := get_client r env file
  match gc.client with
  | none => client_failure gc
  | some _client =>
    match r.search_posts query limit with
    | Except.ok results =>
      let n := results.posts.length
      { exit_code := 0,
        std_out := [s!"# Search: '{query}' ({n} results)\n"]
          ++ (results.posts.map (fun p =>
                let h := p.author.handle
                let t100 := p.record.text.take 100
                let lc := (p.like_count).getD 0
                let u := p.uri
                [s!"@{h}: {t100}...", s!"  ♥ {lc}  URI: {u}", ""])).flatten,
        err_out := gc.err_out,
        content_calls := [ContentCall.searchPosts query limit],
        auth_calls := gc.auth_calls, session_file := gc.session_file,
        got_client := true }
    | Except.error e =>
      { exit_code := 1, std_out := [],
        err_out := gc.err_out ++ [s!"Failed to search: {e}"],
        content_calls := [ContentCall.searchPosts query limit],
        auth_calls := gc.auth_calls, session_file := gc.session_file,
        got_client := true }

/-- The `profile` command (`handle = none` shows the caller's own profile). -/
def profile (r : Remote) (env : Env) (file : Option String)
    (handle : Option String) : CmdOut :=
  let gc := get_client r env file
  match gc.client with
  | none => client_failure gc
  | some client =>
    let h :=
      match handle with
      | none => client.me_handle
      | some h => h
    match r.get_profile h with
    | Except.ok result =>
      let rh := result.handle
      let fc := result.followers_count
      let fo := result.follows_count
      let pc := result.posts_count
      { exit_code := 0,
        std_out := [s!"# @{rh}"]
          ++ (match result.display_name with
              | some dn => if dn ≠ "" then [s!"  {dn}"] else []
              | none => [])
          ++ (match result.description with
              | some ds => if ds ≠ "" then [s!"  {ds}"] else []
              | none => [])
          ++ ["", s!"  Followers: {fc}", s!"  Following: {fo}", s!"  Posts: {pc}"],
        err_out := gc.err_out,
        content_calls := [ContentCall.getProfile h],
        auth_calls := gc.auth_calls, session_file := gc.session_file,
        got_client := true }
    | Except.error e =>
      { exit_code := 1, std_out := [],
        err_out := gc.err_out ++ [s!"Failed to get profile: {e}"],
        content_calls := [ContentCall.getProfile h],
        auth_calls := gc.auth_calls, session_file := gc.session_file,
        got_client := true }

/-- The rendering of the fixed `SESSION_FILE` path
(`Path.home() / ".cache" / "bsky" / "session.txt"`); the home-directory
prefix, which depends on the host, is abstracted as `~`. -/
def SESSION_FILE_str : String := "~/.cache/bsky/session.txt"

/-- The `whoami` command: no content call, no error handling of its own. -/
def whoami (r : Remote) (env : Env) (file : Option String) : CmdOut :=
  let gc := get_client r env file
  match gc.client with
  | none => client_failure gc
  | some client =>
    let mh := client.me_handle
    let md := client.me_did
    let sf := SESSION_FILE_str
    { exit_code := 0,
      std_out := [s!"Logged in as: @{mh}", s!"DID: {md}"]
        ++ (if (gc.session_file).isSome then [s!"Session cached at: {sf}"] else []),
      err_out := gc.err_out, content_calls := [],
      auth_calls := gc.auth_calls, session_file := gc.session_file,
      got_client := true }

/-- The `logout` command: no client, no remote call. -/
def logout (file : Option String) : CmdOut :=
  match file with
  | some _ =>
    { exit_code := 0, std_out := ["✓ Session cleared"], err_out := [],
      content_calls := [], auth_calls := [],
      session_file := clear_session file, got_client := false }
  | none =>
    { exit_code := 0, std_out := ["No cached session found"], err_out := [],
      content_calls := [], auth_calls := [], session_file := file,
      got_client := false }

/-- The `reply_ref` dictionary `reply` builds from the fetched parent post
(root and parent both point at it). -/
def reply_ref_of (t : ThreadResp) : ReplyRef :=
  { root := { uri := t.thread.post.uri, cid := t.thread.post.cid },
    parent := { uri := t.thread.post.uri, cid := t.thread.post.cid } }

/-- Whether the remote half of `reply` succeeds: the thread fetch and then
the `send_post` with the derived reply reference both return without an
`AtProtocolError`. -/
def reply_remote_ok (r : Remote) (post_uri text : String) : Bool :=
  match r.get_post_thread post_uri with
  | Except.ok t => (r.send_post text (some (reply_ref_of t))).toOption.isSome
  | Except.error _ => false

/-- Whether the remote half of `like` succeeds: the thread fetch and then
the `like` call both return without an `AtProtocolError`. -/
def like_remote_ok (r : Remote) (post_uri : String) : Bool :=
  match r.get_post_thread post_uri with
  | Except.ok t => (r.like t.thread.post.uri t.thread.post.cid).toOption.isSome
  | Except.error _ => false

/-! Concrete fixtures used by witnesses and counterexamples. -/

/-- A concrete post view. -/
def exPost : PostView :=
  { record := { text := "hello world", created_at := CreatedAt.str "2024-01-02T03:04:05Z" },
    author := { handle := "bob.example", display_name := some "Bob" },
    like_count := some 1, repost_count := none, reply_count := some 2,
    uri := "at://post/parent", cid := "cid1" }

/-- A concrete profile. -/
def exProfile : Profile :=
  { handle := "bob.example", display_name := some "Bob", description := none,
    followers_count := 3, follows_count := 4, posts_count := 5 }

/-- A concrete thread response: a post with one reply and no parent. -/
def exThread : ThreadResp :=
  { thread := { post := exPost, parent := none,
                replies := some [{ post := some exPost }] } }

/-- A concrete remote oracle on which every operation succeeds for the
expected inputs. -/
def exRemote : Remote :=
  { restore := fun s => if s = "cached-token" then some "restored-token" else none,
    login := fun h p =>
      if h = "alice.example" && p = "secret" then Except.ok "fresh-token"
      else Except.error "Invalid identifier or password",
    me_handle := "alice.example", me_did := "did:plc:alice",
    send_post := fun _ _ => Except.ok { uri := "at://post/new" },
    get_timeline := fun _ => Except.ok { feed := [{ post := exPost }] },
    get_post_thread := fun _ => Except.ok exThread,
    like := fun _ _ => Except.ok (),
    search_posts := fun _ _ => Except.ok { posts := [exPost] },
    get_profile := fun _ => Except.ok exProfile }

/-- A concrete environment holding both credentials. -/
def exEnv : Env :=
  { BLUESKY_HANDLE := some "alice.example", BLUESKY_APP_PASSWORD := some "secret" }

/-- A concrete environment missing the handle. -/
def exEnvNoHandle : Env :=
  { BLUESKY_HANDLE := none, BLUESKY_APP_PASSWORD := some "secret" }

/-- A concrete 301-character text, one over the limit. -/
def exLongText : String := String.mk (List.replicate 301 'a')

/-- A concrete stand-in for `datetime.fromisoformat` that always raises
`ValueError`. -/
def exFromiso : String → Option PyDateTime := fun _ => none

/-- A concrete thread response with twelve replies. -/
def exThreadMany : ThreadResp :=
  { thread := { post := exPost, parent := none,
                replies := some (List.replicate 12 { post := some exPost }) } }

/-- `exRemote` with a twelve-reply thread response. -/
def exRemoteMany : Remote :=
  { exRemote with get_post_thread := fun _ => Except.ok exThreadMany }

/-! Theorems. -/

/-- `toString` on a string is the string itself. -/
@[simp] lemma toString_string (s : String) : toString s = s := rfl

/-- `clear_session` leaves no session file, whatever the prior state. -/
lemma clear_session_eq_none (file : Option String) : clear_session file = none := by
  cases file <;> rfl

/-- C1: when the cached session loads (truthy) but restoring it fails,
`get_client` deletes the stale session file and performs exactly one
fallback credential login with the two environment variables — the
authentication-call trace is exactly the failed restore followed by one
credential login, with no further retry.  On login success the resulting
token is persisted to the session file and the client is returned; on
login failure the process exits with code 1 and the stale file stays
deleted. -/
theorem get_client_restore_failure_single_fallback
    (r : Remote) (env : Env) (file : Option String) (s h p : String)
    (hload : load_session file = some s) (hs : s ≠ "")
    (hrestore : r.restore s = none)
    (hh : env.BLUESKY_HANDLE = some h) (hh2 : h ≠ "")
    (hp : env.BLUESKY_APP_PASSWORD = some p) (hp2 : p ≠ "") :
    (get_client r env file).auth_calls
      = [AuthCall.restoreLogin s, AuthCall.credentialLogin h p]
    ∧ (∀ ex, r.login h p = Except.ok ex →
        (get_client r env file).client
          = some { export_session_string := ex, me_handle := r.me_handle,
                   me_did := r.me_did }
        ∧ (get_client r env file).session_file = some ex
        ∧ (get_client r env file).exit_code = none)
    ∧ (∀ e, r.login h p = Except.error e →
        (get_client r env file).client = none
        ∧ (get_client r env file).session_file = none
        ∧ (get_client r env file).exit_code = some 1) := by
  have hgc : get_client r env file
      = fresh_login r env none [AuthCall.restoreLogin s] [] := by
    simp [get_client, hload, pyTruthy, hs, hrestore, clear_session_eq_none]
  rw [hgc]
  unfold fresh_login
  rw [hh, hp]
  simp only [Option.getD_some]
  cases hlogin : r.login h p with
  | ok ex =>
    refine ⟨by simp [pyTruthy, hh2, hp2], ?_, ?_⟩
    · intro ex2 hex2
      cases hex2
      simp [pyTruthy, hh2, hp2, save_session]
    · intro e he
      cases he
  | error e =>
    refine ⟨by simp [pyTruthy, hh2, hp2], ?_, ?_⟩
    · intro ex2 hex2
      cases hex2
    · intro e2 he2
      cases he2
      simp [pyTruthy, hh2, hp2]

/-- Witness for C1 at a concrete stale session and concrete credentials. -/
theorem get_client_restore_failure_single_fallback_witness :
    (get_client exRemote exEnv (some "stale")).auth_calls
      = [AuthCall.restoreLogin "stale",
         AuthCall.credentialLogin "alice.example" "secret"]
    ∧ (get_client exRemote exEnv (some "stale")).session_file = some "fresh-token"
    ∧ (get_client exRemote exEnv (some "stale")).exit_code = none := by
  have h := get_client_restore_failure_single_fallback exRemote exEnv
    (some "stale") "stale" "alice.example" "secret" (by decide) (by decide)
    (by decide) rfl (by decide) rfl (by decide)
  exact ⟨h.1, (h.2.1 "fresh-token" rfl).2.1, (h.2.1 "fresh-token" rfl).2.2⟩

/-- C4: with a valid cached session (the file loads to a truthy string the
remote restores), `get_client` returns the restored client, and its entire
result is identical for any two environments — the credentials are neither
read nor required. -/
theorem get_client_cached_session_env_independent
    (r : Remote) (file : Option String) (s ex : String)
    (hload : load_session file = some s) (hs : s ≠ "")
    (hok : r.restore s = some ex) (env₁ env₂ : Env) :
    (get_client r env₁ file).client
      = some { export_session_string := ex, me_handle := r.me_handle,
               me_did := r.me_did }
    ∧ get_client r env₁ file = get_client r env₂ file := by
  constructor <;>
    simp [get_client, hload, pyTruthy, hs, hok]

/-- Witness for C4 at a concrete cached token and two concrete
environments (one of which lacks the handle entirely). -/
theorem get_client_cached_session_env_independent_witness :
    (get_client exRemote exEnv (some "cached-token")).client
      = some { export_session_string := "restored-token",
               me_handle := "alice.example", me_did := "did:plc:alice" }
    ∧ get_client exRemote exEnv (some "cached-token")
      = get_client exRemote exEnvNoHandle (some "cached-token") :=
  get_client_cached_session_env_independent exRemote (some "cached-token")
    "cached-token" "restored-token" (by decide) (by decide) (by decide)
    exEnv exEnvNoHandle

/-- C5: when no cached session restores (absent, empty, or rejected) and at
least one of the two environment variables is missing, `get_client` exits
with code 1, writes the descriptive message to stderr, and never attempts a
credential login. -/
theorem get_client_missing_credentials_fatal
    (r : Remote) (env : Env) (file : Option String)
    (hsess : ∀ s, load_session file = some s → s = "" ∨ r.restore s = none)
    (henv : env.BLUESKY_HANDLE = none ∨ env.BLUESKY_APP_PASSWORD = none) :
    (get_client r env file).exit_code = some 1
    ∧ (get_client r env file).client = none
    ∧ "Error: BLUESKY_HANDLE and BLUESKY_APP_PASSWORD must be set"
        ∈ (get_client r env file).err_out
    ∧ ∀ h p, AuthCall.credentialLogin h p ∉ (get_client r env file).auth_calls := by
  have hmiss : (!pyTruthy env.BLUESKY_HANDLE || !pyTruthy env.BLUESKY_APP_PASSWORD) = true := by
    rcases henv with h | h <;> simp [h, pyTruthy]
  have key : ∀ (f : Option String) (c : List AuthCall) (e : List String),
      (fresh_login r env f c e).exit_code = some 1
      ∧ (fresh_login r env f c e).client = none
      ∧ "Error: BLUESKY_HANDLE and BLUESKY_APP_PASSWORD must be set"
          ∈ (fresh_login r env f c e).err_out
      ∧ (fresh_login r env f c e).auth_calls = c := by
    intro f c e
    unfold fresh_login
    rw [if_pos hmiss]
    simp
  cases hload : load_session file with
  | none =>
    have hgc : get_client r env file = fresh_login r env file [] [] := by
      simp [get_client, hload, pyTruthy]
    rw [hgc]
    refine ⟨(key _ _ _).1, (key _ _ _).2.1, (key _ _ _).2.2.1, ?_⟩
    intro h p
    rw [(key _ _ _).2.2.2]
    simp
  | some s =>
    rcases hsess s hload with hemp | hrej
    · have hgc : get_client r env file = fresh_login r env file [] [] := by
        simp [get_client, hload, pyTruthy, hemp]
      rw [hgc]
      refine ⟨(key _ _ _).1, (key _ _ _).2.1, (key _ _ _).2.2.1, ?_⟩
      intro h p
      rw [(key _ _ _).2.2.2]
      simp
    · by_cases hs : s = ""
      · have hgc : get_client r env file = fresh_login r env file [] [] := by
          simp [get_client, hload, pyTruthy, hs]
        rw [hgc]
        refine ⟨(key _ _ _).1, (key _ _ _).2.1, (key _ _ _).2.2.1, ?_⟩
        intro h p
        rw [(key _ _ _).2.2.2]
        simp
      · have hgc : get_client r env file
            = fresh_login r env none [AuthCall.restoreLogin s] [] := by
          simp [get_client, hload, pyTruthy, hs, hrej, clear_session_eq_none]
        rw [hgc]
        refine ⟨(key _ _ _).1, (key _ _ _).2.1, (key _ _ _).2.2.1, ?_⟩
        intro h p
        rw [(key _ _ _).2.2.2]
        simp

/-- Witness for C5: no session file, handle variable absent. -/
theorem get_client_missing_credentials_fatal_witness :
    (get_client exRemote exEnvNoHandle none).exit_code = some 1
    ∧ (get_client exRemote exEnvNoHandle none).client = none
    ∧ "Error: BLUESKY_HANDLE and BLUESKY_APP_PASSWORD must be set"
        ∈ (get_client exRemote exEnvNoHandle none).err_out
    ∧ AuthCall.credentialLogin "alice.example" "secret"
        ∉ (get_client exRemote exEnvNoHandle none).auth_calls := by
  have h := get_client_missing_credentials_fatal exRemote exEnvNoHandle none
    (by intro s hs; simp [load_session] at hs) (Or.inl rfl)
  exact ⟨h.1, h.2.1, h.2.2.1, h.2.2.2 "alice.example" "secret"⟩

/-- C9: whenever `get_client` returns a client, the session file holds that
client's exported session string — `save_session` ran on whichever path
produced the client. -/
theorem get_client_session_persisted
    (r : Remote) (env : Env) (file : Option String) (c : Client)
    (h : (get_client r env file).client = some c) :
    (get_client r env file).session_file = some c.export_session_string := by
  revert h
  simp only [get_client, fresh_login]
  repeat' split
  all_goals intro h
  all_goals
    first
      | exact Option.noConfusion h
      | (have h2 := Option.some.inj h
         subst h2
         rfl)

/-- Witness for C9 at the concrete cached-restore path. -/
theorem get_client_session_persisted_witness :
    (get_client exRemote exEnv (some "cached-token")).session_file
      = some "restored-token" := by
  have h := get_client_session_persisted exRemote exEnv (some "cached-token")
    { export_session_string := "restored-token", me_handle := "alice.example",
      me_did := "did:plc:alice" } (by decide)
  exact h

/-- C2: a text over 300 characters makes `post` (and likewise `reply`) exit
with code 1 and the descriptive error, before any client is obtained and
before any remote call — authentication and content call traces are both
empty. -/
theorem oversize_text_rejected_locally
    (r : Remote) (env : Env) (file : Option String) (text post_uri : String)
    (h : text.length > 300) :
    (post r env file text).exit_code = 1
    ∧ (post r env file text).got_client = false
    ∧ (post r env file text).content_calls = []
    ∧ (post r env file text).auth_calls = []
    ∧ (post r env file text).err_out
        = ["Error: Post too long (" ++ toString text.length ++ " chars, max 300)"]
    ∧ (reply r env file post_uri text).exit_code = 1
    ∧ (reply r env file post_uri text).got_client = false
    ∧ (reply r env file post_uri text).content_calls = []
    ∧ (reply r env file post_uri text).auth_calls = []
    ∧ (reply r env file post_uri text).err_out
        = ["Error: Reply too long (" ++ toString text.length ++ " chars, max 300)"] := by
  simp only [post, reply, if_pos h]
  simp

set_option maxRecDepth 2000 in
/-- Witness for C2 at a concrete 301-character text. -/
theorem oversize_text_rejected_locally_witness :
    (post exRemote exEnv none exLongText).exit_code = 1
    ∧ (post exRemote exEnv none exLongText).auth_calls = []
    ∧ (reply exRemote exEnv none "at://post/parent" exLongText).exit_code = 1
    ∧ (reply exRemote exEnv none "at://post/parent" exLongText).content_calls = [] := by
  obtain ⟨a, b, c, d, e, f, g, i, j, k⟩ :=
    oversize_text_rejected_locally exRemote exEnv none exLongText
      "at://post/parent" (by simp [exLongText, String.length])
  exact ⟨a, d, f, i⟩

/-- C6: `logout` always ends with no session file and exit code 0; it
reports the cleared session when the file existed and otherwise that no
cached session was found. -/
theorem logout_clears_session (file : Option String) :
    (logout file).session_file = none
    ∧ (logout file).exit_code = 0
    ∧ (logout file).std_out
        = (if file.isSome then ["✓ Session cleared"] else ["No cached session found"]) := by
  cases file <;> simp [logout, clear_session]

/-- C7: `format_post` renders, in this fixed order, the author line
(handle, then display name falling back to the handle), the post text, the
timestamp, the three engagement counts, and — only when `show_uri` is set —
the URI. -/
theorem format_post_fixed_order (fromiso : String → Option PyDateTime)
    (p : FeedViewPost) (b : Bool) :
    format_post fromiso p b =
      String.intercalate "\n"
        (["@" ++ p.post.author.handle ++ " ("
            ++ pyOr p.post.author.display_name p.post.author.handle ++ ")",
          "  " ++ p.post.record.text,
          "  " ++ format_time fromiso p.post.record.created_at,
          "  ♥ " ++ toString ((p.post.like_count).getD 0)
            ++ "  🔁 " ++ toString ((p.post.repost_count).getD 0)
            ++ "  💬 " ++ toString ((p.post.reply_count).getD 0)]
          ++ if b then ["  URI: " ++ p.post.uri] else []) := by
  cases b <;> simp [format_post]

/-- When `get_client` fails to produce a client it exits with code 1. -/
lemma get_client_none_exit (r : Remote) (env : Env) (file : Option String)
    (h : (get_client r env file).client = none) :
    (get_client r env file).exit_code = some 1 := by
  revert h
  simp only [get_client, fresh_login]
  repeat' split
  all_goals simp

/-- C8: each subcommand's exit code is exactly `0` when the invocation
succeeds (local validation passes, a client is obtained, and every remote
call returns without error) and exactly `1` on any local-validation or
remote failure — so no other exit code is ever produced. -/
theorem command_exit_codes
    (fromiso : String → Option PyDateTime) (r : Remote) (env : Env)
    (file : Option String) (text post_uri query : String) (limit : Int)
    (uri : Bool) (handle : Option String) :
    (post r env file text).exit_code
      = (if text.length ≤ 300 ∧ (get_client r env file).client.isSome
            ∧ (r.send_post text none).toOption.isSome then 0 else 1)
    ∧ (timeline fromiso r env file limit uri).exit_code
      = (if (get_client r env file).client.isSome
            ∧ (r.get_timeline limit).toOption.isSome then 0 else 1)
    ∧ (reply r env file post_uri text).exit_code
      = (if text.length ≤ 300 ∧ (get_client r env file).client.isSome
            ∧ reply_remote_ok r post_uri text then 0 else 1)
    ∧ (like r env file post_uri).exit_code
      = (if (get_client r env file).client.isSome
            ∧ like_remote_ok r post_uri then 0 else 1)
    ∧ (thread r env file post_uri).exit_code
      = (if (get_client r env file).client.isSome
            ∧ (r.get_post_thread post_uri).toOption.isSome then 0 else 1)
    ∧ (search r env file query limit).exit_code
      = (if (get_client r env file).client.isSome
            ∧ (r.search_posts query limit).toOption.isSome then 0 else 1)
    ∧ (((get_client r env file).client = none →
          (profile r env file handle).exit_code = 1)
        ∧ ∀ c, (get_client r env file).client = some c →
            (profile r env file handle).exit_code
              = (if (r.get_profile (match handle with
                      | none => c.me_handle
                      | some h => h)).toOption.isSome then 0 else 1))
    ∧ (whoami r env file).exit_code
      = (if (get_client r env file).client.isSome then 0 else 1)
    ∧ (logout file).exit_code = 0 := by
  refine ⟨?_, ?_, ?_, ?_, ?_, ?_, ⟨?_, ?_⟩, ?_, ?_⟩
  · by_cases hlen : text.length ≤ 300
    · have hnot : ¬ (text.length > 300) := by omega
      cases hcl : (get_client r env file).client with
      | none =>
        simp [post, if_neg hnot, hcl, client_failure,
          get_client_none_exit r env file hcl]
      | some c =>
        cases hsp : r.send_post text none <;>
          simp [post, if_neg hnot, hcl, hsp, hlen, Except.toOption]
    · have hgt : text.length > 300 := by omega
      simp [post, if_pos hgt, hlen]
  · cases hcl : (get_client r env file).client with
    | none =>
      simp [timeline, hcl, client_failure, get_client_none_exit r env file hcl]
    | some c =>
      cases htl : r.get_timeline limit <;>
        simp [timeline, hcl, htl, Except.toOption]
  · by_cases hlen : text.length ≤ 300
    · have hnot : ¬ (text.length > 300) := by omega
      cases hcl : (get_client r env file).client with
      | none =>
        simp [reply, if_neg hnot, hcl, client_failure,
          get_client_none_exit r env file hcl]
      | some c =>
        cases hgt : r.get_post_thread post_uri with
        | error e =>
          simp [reply, if_neg hnot, hcl, hgt, reply_remote_ok, hlen]
        | ok t =>
          cases hsp : r.send_post text
              (some { root := { uri := t.thread.post.uri, cid := t.thread.post.cid },
                      parent := { uri := t.thread.post.uri, cid := t.thread.post.cid } }) <;>
            simp [reply, if_neg hnot, hcl, hgt, hsp, reply_remote_ok,
              reply_ref_of, hlen, Except.toOption]
    · have hgt : text.length > 300 := by omega
      simp [reply, if_pos hgt, hlen]
  · cases hcl : (get_client r env file).client with
    | none =>
      simp [like, hcl, client_failure, get_client_none_exit r env file hcl]
    | some c =>
      cases hgt : r.get_post_thread post_uri with
      | error e => simp [like, hcl, hgt, like_remote_ok]
      | ok t =>
        cases hlk : r.like t.thread.post.uri t.thread.post.cid <;>
          simp [like, hcl, hgt, hlk, like_remote_ok, Except.toOption]
  · cases hcl : (get_client r env file).client with
    | none =>
      simp [thread, hcl, client_failure, get_client_none_exit r env file hcl]
    | some c =>
      cases hgt : r.get_post_thread post_uri <;>
        simp [thread, hcl, hgt, Except.toOption]
  · cases hcl : (get_client r env file).client with
    | none =>
      simp [search, hcl, client_failure, get_client_none_exit r env file hcl]
    | some c =>
      cases hse : r.search_posts query limit <;>
        simp [search, hcl, hse, Except.toOption]
  · intro hcl
    simp [profile, hcl, client_failure, get_client_none_exit r env file hcl]
  · intro c hcl
    cases handle with
    | none =>
      cases hgp : r.get_profile c.me_handle <;>
        simp [profile, hcl, hgp, Except.toOption]
    | some hh =>
      cases hgp : r.get_profile hh <;>
        simp [profile, hcl, hgp, Except.toOption]
  · cases hcl : (get_client r env file).client with
    | none =>
      simp [whoami, hcl, client_failure, get_client_none_exit r env file hcl]
    | some c => simp [whoami, hcl]
  · cases file <;> simp [logout]

/-- Witness for C8: a successful `post` exits 0, the same `post` without a
cached session or credentials exits 1, and a successful own-profile lookup
exits 0, at concrete inputs. -/
theorem command_exit_codes_witness :
    (post exRemote exEnv (some "cached-token") "hi").exit_code = 0
    ∧ (post exRemote exEnvNoHandle none "hi").exit_code = 1
    ∧ (profile exRemote exEnv (some "cached-token") none).exit_code = 0 := by
  have h := command_exit_codes exFromiso exRemote exEnv (some "cached-token")
    "hi" "at://post/parent" "q" 20 false none
  have h2 := command_exit_codes exFromiso exRemote exEnvNoHandle none
    "hi" "at://post/parent" "q" 20 false none
  have hp := (h.2.2.2.2.2.2.1).2
    { export_session_string := "restored-token", me_handle := "alice.example",
      me_did := "did:plc:alice" } (by decide)
  refine ⟨?_, ?_, ?_⟩
  · rw [h.1]
    decide
  · rw [h2.1]
    decide
  · rw [hp]
    decide

/-- C10: with a thread whose `replies` list is truthy, the `thread` command
prints, after the parent and main-post sections, the replies header and then
exactly the renderings of the first 10 replies in order; a thread view
truncated to its first 10 replies prints the same replies section (replies
beyond the tenth are silently omitted); and each rendered reply shows the
author handle and the reply text truncated to its first 100 characters. -/
theorem thread_shows_first_ten_replies_truncated
    (r : Remote) (env : Env) (file : Option String) (post_uri : String)
    (resp : ThreadResp) (l : List ReplyNode) (c : Client)
    (hc : (get_client r env file).client = some c)
    (hth : r.get_post_thread post_uri = Except.ok resp)
    (hrep : resp.thread.replies = some l) (hne : l ≠ []) :
    (thread r env file post_uri).std_out
      = thread_parent_lines resp.thread ++ thread_main_lines resp.thread
        ++ (["--- Replies ---"] ++ ((l.take 10).map thread_reply_lines).flatten)
    ∧ thread_replies_lines
        { post := resp.thread.post, parent := resp.thread.parent,
          replies := some (l.take 10) }
        = thread_replies_lines resp.thread
    ∧ ∀ rp ∈ l, ∀ p, rp.post = some p →
        thread_reply_lines rp
          = ["@" ++ p.author.handle ++ ": " ++ p.record.text.take 100, ""] := by
  have htake : l.take 10 ≠ [] := by
    simp [List.take_eq_nil_iff, hne]
  have h2 : thread_replies_lines resp.thread
      = ["--- Replies ---"] ++ ((l.take 10).map thread_reply_lines).flatten := by
    simp [thread_replies_lines, hrep, hne]
  refine ⟨?_, ?_, ?_⟩
  · simp [thread, hc, hth, h2]
  · rw [h2]
    simp [thread_replies_lines, htake, List.take_take]
  · intro rp _ p hp
    simp [thread_reply_lines, hp]

/-- Witness for C10: a concrete thread with twelve replies shows exactly
the first ten. -/
theorem thread_shows_first_ten_replies_truncated_witness :
    (thread exRemoteMany exEnv (some "cached-token") "at://post/parent").std_out
      = thread_parent_lines exThreadMany.thread
        ++ thread_main_lines exThreadMany.thread
        ++ (["--- Replies ---"]
            ++ (((List.replicate 12 ({ post := some exPost } : ReplyNode)).take 10).map
                  thread_reply_lines).flatten) := by
  have h := thread_shows_first_ten_replies_truncated exRemoteMany exEnv
    (some "cached-token") "at://post/parent" exThreadMany
    (List.replicate 12 { post := some exPost })
    { export_session_string := "restored-token", me_handle := "alice.example",
      me_did := "did:plc:alice" }
    (by decide) rfl rfl (by decide)
  exact h.1

/-- C3 counterexample: at a concrete invocation where the thread fetch
succeeds, the `reply` command issues two remote content calls (the thread
fetch for the parent CID, then the post), not one; `like` likewise. -/
theorem reply_and_like_not_single_call_counterexample :
    ¬ ((reply exRemote exEnv (some "cached-token") "at://post/parent" "hi").content_calls.length
        = 1)
    ∧ (reply exRemote exEnv (some "cached-token") "at://post/parent" "hi").content_calls.length
        = 2
    ∧ (like exRemote exEnv (some "cached-token") "at://post/parent").content_calls.length
        = 2 := by
  refine ⟨by decide, rfl, rfl⟩

/-- C3 as amended: once the client is obtained, `post`, `timeline`,
`thread`, `search` and `profile` each issue exactly one remote content
call; `reply` and `like` first fetch the target thread and then perform
the action, so they issue two content calls when the fetch succeeds and
one when it fails. -/
theorem content_call_counts
    (fromiso : String → Option PyDateTime) (r : Remote) (env : Env)
    (file : Option String) (text post_uri query : String) (limit : Int)
    (uri : Bool) (handle : Option String) (c : Client)
    (hc : (get_client r env file).client = some c)
    (ht : text.length ≤ 300) :
    (post r env file text).content_calls.length = 1
    ∧ (timeline fromiso r env file limit uri).content_calls.length = 1
    ∧ (thread r env file post_uri).content_calls.length = 1
    ∧ (search r env file query limit).content_calls.length = 1
    ∧ (profile r env file handle).content_calls.length = 1
    ∧ (reply r env file post_uri text).content_calls.length
        = (if (r.get_post_thread post_uri).toOption.isSome then 2 else 1)
    ∧ (like r env file post_uri).content_calls.length
        = (if (r.get_post_thread post_uri).toOption.isSome then 2 else 1) := by
  have hnot : ¬ (text.length > 300) := by omega
  refine ⟨?_, ?_, ?_, ?_, ?_, ?_, ?_⟩
  · simp only [post, if_neg hnot, hc]
    split <;> simp
  · simp only [timeline, hc]
    split <;> simp
  · simp only [thread, hc]
    split <;> simp
  · simp only [search, hc]
    split <;> simp
  · simp only [profile, hc]
    split <;> simp
  · simp only [reply, if_neg hnot, hc]
    cases hgt : r.get_post_thread post_uri with
    | error e => simp [Except.toOption]
    | ok t =>
      split <;> rename_i heq
      · exact Except.noConfusion heq
      · cases heq
        split <;> simp [Except.toOption]
  · simp only [like, hc]
    cases hgt : r.get_post_thread post_uri with
    | error e => simp [Except.toOption]
    | ok t =>
      split <;> rename_i heq
      · exact Except.noConfusion heq
      · cases heq
        split <;> simp [Except.toOption]

/-- Witness for the amended C3: `post` makes one content call and `reply`
two at a concrete invocation. -/
theorem content_call_counts_witness :
    (post exRemote exEnv (some "cached-token") "hi").content_calls.length = 1
    ∧ (reply exRemote exEnv (some "cached-token") "at://post/parent" "hi").content_calls.length
        = 2 := by
  have h := content_call_counts exFromiso exRemote exEnv (some "cached-token")
    "hi" "at://post/parent" "q" 20 false none
    { export_session_string := "restored-token", me_handle := "alice.example",
      me_did := "did:plc:alice" }
    (by decide) (by decide)
  refine ⟨h.1, ?_⟩
  have h6 := h.2.2.2.2.2.1
  simpa [exRemote] using h6

end BlueskyCli
